import Mathlib

/-!
Verification of the DCA trade-execution and idempotency core of `crypto-dca.py`.

The Python source is shallowly embedded as executable Lean definitions:

* money amounts and prices (Python floats holding exact decimal inputs) are
  modelled as `ℚ`;
* the `DCA_TARGET_MAP` JSON object is an association list from asset keys to
  entries, where an entry is either a legacy bare time string or a structured
  record with optional fields (a missing JSON field is `none`);
* wall-clock time is passed explicitly: `is_time_to_trade` receives the
  current second-of-day, and the current date string is a field of the
  ambient `TradeWorld`;
* network effects (order placement, order-info fetch, the GitHub variable
  store, FX lookup) are modelled by response oracles carried in
  `TradeWorld`/`Store`, so the functions stay pure while following the
  control flow of the source exactly;
* a Python `raise` is an `Except.error`; the blanket `except` at the end of
  `execute_trade` converts an inner error into an ordinary failure alert;
* the step-6 gist call of `execute_trade` (crypto-dca.py line 433) passes
  the keyword argument `saved_to_ghostfolio` to
  `gist_logger.update_gist_log`, whose definition (gist_logger.py line 46)
  is `def update_gist_log(trade_data, symbol="BTC")` with no such parameter
  and no keyword catch-all — in Python this call raises `TypeError`
  unconditionally, before the callee body runs (the older caller at
  bitkub-dca.py line 340 omits the keyword).  Steps 7 and 8 of
  `execute_trade` — the success notification and the `save_last_buy_date`
  call — are therefore unreachable, and the embedding reflects that.

Function and field names follow the Python source (`crypto-dca.py`).
-/

namespace DCA

/-! ## TradeScheduler: `is_time_to_trade` (crypto-dca.py lines 114-163)

The Python code does `t_hour, t_minute = map(int, target_time_str.split(':'))`
and then `now.replace(hour=t_hour, minute=t_minute, second=0, microsecond=0)`
inside a `try`, returning `False` on any exception.  `splitCells` models
`str.split(':')`, `pythonIntOfChars` models `int(...)` on a string (optional
surrounding whitespace, optional sign, decimal digits), and the range checks
model the `ValueError` that `datetime.replace` raises for an out-of-range
hour or minute. -/

/-- Model of Python `str.split(':')` on the character list of the string. -/
def splitCells : List Char → List (List Char)
  | [] => [[]]
  | c :: rest =>
      match splitCells rest with
      | [] => [[]]
      | cell :: cells => if c = ':' then [] :: cell :: cells else (c :: cell) :: cells

/-- Numeric value of a digit list, most significant digit first. -/
def digitsVal (cs : List Char) : Nat :=
  cs.foldl (fun a c => a * 10 + (c.toNat - '0'.toNat)) 0

/-- Strip leading and trailing whitespace, as Python `int(...)` does. -/
def stripChars (cs : List Char) : List Char :=
  ((cs.dropWhile Char.isWhitespace).reverse.dropWhile Char.isWhitespace).reverse

/-- Model of Python `int(s)` for a decimal string: `none` means `ValueError`. -/
def pythonIntOfChars (cs : List Char) : Option Int :=
  match stripChars cs with
  | '+' :: rest => if rest ≠ [] ∧ rest.all Char.isDigit then some (digitsVal rest : Int) else none
  | '-' :: rest => if rest ≠ [] ∧ rest.all Char.isDigit then some (-(digitsVal rest : Int)) else none
  | rest => if rest ≠ [] ∧ rest.all Char.isDigit then some (digitsVal rest : Int) else none

/-- The parsing-and-validation performed inside the `try` of
`is_time_to_trade`: split on `':'`, require exactly two integer fields
(the tuple unpacking), and require them to be a valid hour and minute
(`datetime.replace` raises otherwise).  `none` models the caught exception. -/
def parseTargetTime (s : String) : Option (Int × Int) :=
  match (splitCells s.data).map pythonIntOfChars with
  | [some h, some m] =>
      if 0 ≤ h ∧ h ≤ 23 ∧ 0 ≤ m ∧ m ≤ 59 then some (h, m) else none
  | _ => none

/-- Function `is_time_to_trade` (crypto-dca.py lines 114-163).  `nowSecs` is the
current second-of-day in the selected timezone; `diff` is
`(now - target_dt).total_seconds()` where `target_dt` is the date of today at the
target hour and minute.  Rule 1: within ±300 s of the target.  Rule 2:
`diff > 0`, the catch-up branch. -/
def is_time_to_trade (target_time_str : String) (nowSecs : Int) : Bool :=
  match parseTargetTime target_time_str with
  | none => false
  | some (h, m) =>
      let diff := nowSecs - (h * 3600 + m * 60)
      if diff.natAbs ≤ 300 then true
      else if 0 < diff then true
      else false

/-- Claim C3: for every validly formatted scheduled time and current moment,
with `delta = now - scheduledTimeToday` in seconds, `is_time_to_trade`
returns `true` when `|delta| ≤ 300`, `true` when `delta > 300` (catch-up for
a scheduled time already passed today), and `false` when `delta < -300`. -/
theorem time_window_spec (s : String) (h m nowSecs : Int)
    (hp : parseTargetTime s = some (h, m)) :
    ((nowSecs - (h * 3600 + m * 60)).natAbs ≤ 300 → is_time_to_trade s nowSecs = true) ∧
    (300 < nowSecs - (h * 3600 + m * 60) → is_time_to_trade s nowSecs = true) ∧
    (nowSecs - (h * 3600 + m * 60) < -300 → is_time_to_trade s nowSecs = false) := by
  unfold is_time_to_trade
  rw [hp]
  refine ⟨fun hw => ?_, fun hl => ?_, fun he => ?_⟩
  · simp [hw]
  · have : ¬ (nowSecs - (h * 3600 + m * 60) < 0) := by omega
    simp only []
    split
    · rfl
    · simp [show (0:Int) < nowSecs - (h * 3600 + m * 60) by omega]
  · have h1 : ¬ ((nowSecs - (h * 3600 + m * 60)).natAbs ≤ 300) := by omega
    have h2 : ¬ ((0:Int) < nowSecs - (h * 3600 + m * 60)) := by omega
    simp [h1, h2]

/-- Witness for C3: the window case at exactly the scheduled time, the
catch-up case one hour late, and the early case one hour before. -/
theorem time_window_spec_witness :
    is_time_to_trade "07:00" 25200 = true ∧
    is_time_to_trade "07:00" 28800 = true ∧
    is_time_to_trade "07:00" 21600 = false :=
  ⟨(time_window_spec "07:00" 7 0 25200 (by decide)).1 (by decide),
   (time_window_spec "07:00" 7 0 28800 (by decide)).2.1 (by decide),
   (time_window_spec "07:00" 7 0 21600 (by decide)).2.2 (by decide)⟩

/-- Claim C10: for every target-time string that does not parse as a valid
HH:MM pair, `is_time_to_trade` returns `false` (the exception is caught)
regardless of the current time. -/
theorem invalid_target_time_false (s : String) (nowSecs : Int)
    (hp : parseTargetTime s = none) :
    is_time_to_trade s nowSecs = false := by
  unfold is_time_to_trade
  rw [hp]

/-- Witness for C10: the malformed strings `"abc"`, `"07:00:00"` and
`"25:99"` all fail to parse and are rejected at arbitrary times of day. -/
theorem invalid_target_time_false_witness :
    parseTargetTime "abc" = none ∧
    parseTargetTime "07:00:00" = none ∧
    parseTargetTime "25:99" = none ∧
    is_time_to_trade "abc" 0 = false ∧
    is_time_to_trade "07:00:00" 40000 = false ∧
    is_time_to_trade "25:99" 86000 = false :=
  ⟨by decide, by decide, by decide,
   invalid_target_time_false "abc" 0 (by decide),
   invalid_target_time_false "07:00:00" 40000 (by decide),
   invalid_target_time_false "25:99" 86000 (by decide)⟩

/-! ## Data model: `DCA_TARGET_MAP` entries and `ConfigResolver`
(crypto-dca.py lines 28-34 and 66-112) -/

/-- One value of the `DCA_TARGET_MAP` JSON object: either the legacy bare
time string, or the structured record whose JSON fields may each be absent. -/
inductive Entry where
  | legacy (time : String)
  | record (time : Option String) (amount : Option ℚ) (buyEnabled : Option Bool)
      (lastBuyDate : Option String)
deriving DecidableEq, Repr

/-- The parsed `DCA_TARGET_MAP`: an insertion-ordered mapping from asset key
to entry, modelled as an association list looked up by first match. -/
abbrev TargetMap : Type := List (String × Entry)

/-- Dictionary lookup `target_map[key]` / `key in target_map`. -/
def lookupEntry : TargetMap → String → Option Entry
  | [], _ => none
  | (k, v) :: rest, key => if k = key then some v else lookupEntry rest key

/-- Dictionary update `target_map[key] = v`: replaces the binding in place,
appending a new binding when the key is absent. -/
def setEntry : TargetMap → String → Entry → TargetMap
  | [], key, v => [(key, v)]
  | (k, w) :: rest, key, v =>
      if k = key then (key, v) :: rest else (k, w) :: setEntry rest key v

theorem lookupEntry_setEntry_self (m : TargetMap) (k : String) (v : Entry) :
    lookupEntry (setEntry m k v) k = some v := by
  induction m with
  | nil => simp [setEntry, lookupEntry]
  | cons p rest ih =>
      obtain ⟨k', w⟩ := p
      by_cases h : k' = k
      · simp [setEntry, lookupEntry, h]
      · simp [setEntry, lookupEntry, h, ih]

theorem lookupEntry_setEntry_other (m : TargetMap) (k k' : String) (v : Entry)
    (h : k' ≠ k) : lookupEntry (setEntry m k v) k' = lookupEntry m k' := by
  induction m with
  | nil => simp [setEntry, lookupEntry, Ne.symm h]
  | cons p rest ih =>
      obtain ⟨k'', w⟩ := p
      by_cases h2 : k'' = k
      · subst h2
        simp [setEntry, lookupEntry, Ne.symm h]
      · simp only [setEntry, if_neg h2, lookupEntry, ih]

/-- Constant `DEFAULT_DCA_AMOUNT = 20.0` (crypto-dca.py line 29). -/
def DEFAULT_DCA_AMOUNT : ℚ := 20

/-- Constant `DEFAULT_TARGET_TIME` (crypto-dca.py line 30; environment default). -/
def DEFAULT_TARGET_TIME : String := "07:00"

/-- Model of `symbol_thb.split("_")[0]`: the characters before the first underscore. -/
def baseSymbol (s : String) : String :=
  String.mk (s.data.takeWhile (fun c => c ≠ '_'))

/-- The resolved configuration returned by `get_config_for_symbol`
(field names as in the Python dict). -/
structure AssetConfig where
  TIME : String
  AMOUNT : ℚ
  BUY_ENABLED : Bool
  LAST_BUY_DATE : Option String
  KEY : String
deriving DecidableEq, Repr

/-- First key of `keys_to_check` present in the map, with its entry. -/
def findFirstKey : List String → TargetMap → Option (String × Entry)
  | [], _ => none
  | k :: rest, m =>
      match lookupEntry m k with
      | some e => some (k, e)
      | none => findFirstKey rest m

/-- Function `get_config_for_symbol` (crypto-dca.py lines 66-112): try the symbol as
given then `base + "/USDT"`; a dict entry supplies each field with a
`.get(..., default)`; a scalar entry supplies only the time; no entry means
all defaults.  `AMOUNT` values are modelled as numeric-or-absent (a JSON
number under `float(...)`). -/
def get_config_for_symbol (symbol_thb : String) (target_map : TargetMap) : AssetConfig :=
  match findFirstKey [symbol_thb, baseSymbol symbol_thb ++ "/USDT"] target_map with
  | some (k, .record t a b l) =>
      { TIME := t.getD DEFAULT_TARGET_TIME, AMOUNT := a.getD DEFAULT_DCA_AMOUNT,
        BUY_ENABLED := b.getD true, LAST_BUY_DATE := l, KEY := k }
  | some (k, .legacy t) =>
      { TIME := t, AMOUNT := DEFAULT_DCA_AMOUNT, BUY_ENABLED := true,
        LAST_BUY_DATE := none, KEY := k }
  | none =>
      { TIME := DEFAULT_TARGET_TIME, AMOUNT := DEFAULT_DCA_AMOUNT, BUY_ENABLED := true,
        LAST_BUY_DATE := none, KEY := symbol_thb }

/-- The in-memory mutation performed by `save_last_buy_date` before pushing
(crypto-dca.py lines 229-241): insert an empty record when the key is
absent, convert a legacy scalar into a structured record (preserving its
time, with default amount and enabled flag), then set `LAST_BUY_DATE`. -/
def updateMapWithDate (m : TargetMap) (key date : String) : TargetMap :=
  let entry :=
    match lookupEntry m key with
    | none => Entry.record none none none (some date)
    | some (.legacy t) =>
        Entry.record (some t) (some DEFAULT_DCA_AMOUNT) (some true) (some date)
    | some (.record t a b _) => Entry.record t a b (some date)
  setEntry m key entry

theorem findFirstKey_lookup (ks : List String) (m : TargetMap) (k : String) (e : Entry)
    (h : findFirstKey ks m = some (k, e)) : lookupEntry m k = some e := by
  induction ks with
  | nil => simp [findFirstKey] at h
  | cons k0 rest ih =>
      simp only [findFirstKey] at h
      cases h0 : lookupEntry m k0 with
      | some e0 =>
          rw [h0] at h
          cases h
          exact h0
      | none =>
          rw [h0] at h
          exact ih h

/-- Boolean check that the configured `AMOUNT`, if present, is
strictly positive. -/
def entryAmountPos : Entry → Bool
  | .record _ (some q) _ _ => decide (0 < q)
  | _ => true

/-- Counterexample to claim C8: a map entry that configures `AMOUNT = 0` is
resolved to `amountQuote = 0`, so the resolved amount is not always
positive (the default is substituted only when the field is absent). -/
theorem amount_not_always_positive_cex :
    ¬ (0 < (get_config_for_symbol "BTC_THB"
        [("BTC_THB", Entry.record none (some 0) none none)]).AMOUNT) := by
  decide

/-- Claim C8 (amended): config resolution is total by construction on maps
whose `AMOUNT` fields are numeric or absent, and the resolved `AMOUNT` is
strictly positive provided every `AMOUNT` present in the map is strictly
positive (the positive process default `20` covers the absent cases). -/
theorem amount_positive_of_map_positive (symbol : String) (tm : TargetMap)
    (hpos : tm.all (fun p => entryAmountPos p.2) = true) :
    0 < (get_config_for_symbol symbol tm).AMOUNT := by
  unfold get_config_for_symbol
  cases hf : findFirstKey [symbol, baseSymbol symbol ++ "/USDT"] tm with
  | none => norm_num [DEFAULT_DCA_AMOUNT]
  | some p =>
      obtain ⟨k, e⟩ := p
      have hl : lookupEntry tm k = some e := findFirstKey_lookup _ _ _ _ hf
      have hmem : (k, e) ∈ tm := by
        clear hf hpos
        induction tm with
        | nil => simp [lookupEntry] at hl
        | cons q rest ih =>
            obtain ⟨k0, e0⟩ := q
            simp only [lookupEntry] at hl
            by_cases h : k0 = k
            · rw [if_pos h] at hl
              cases hl
              subst h
              exact List.mem_cons_self _ _
            · rw [if_neg h] at hl
              exact List.mem_cons_of_mem _ (ih hl)
      have he : entryAmountPos e = true := by
        rw [List.all_eq_true] at hpos
        exact hpos (k, e) hmem
      cases e with
      | legacy t => norm_num [DEFAULT_DCA_AMOUNT]
      | record t a b l =>
          cases a with
          | none => norm_num [DEFAULT_DCA_AMOUNT]
          | some q =>
              simp only [entryAmountPos, decide_eq_true_eq] at he
              simpa using he

/-- Witness for the amended C8: a map whose sole entry configures a positive
amount resolves to a positive amount. -/
theorem amount_positive_of_map_positive_witness :
    0 < (get_config_for_symbol "BTC_THB"
        [("BTC_THB", Entry.record none (some 800) none none)]).AMOUNT :=
  amount_positive_of_map_positive "BTC_THB"
    [("BTC_THB", Entry.record none (some 800) none none)] (by decide)

/-- After staging a day-stamp under the key that resolution itself chose,
re-resolving the same symbol sees that day-stamp, with the scheduled time
and enabled flag unchanged.  This is the map-level heart of the idempotency
guarantee. -/
theorem config_after_update (tm : TargetMap) (symbol date : String) :
    (get_config_for_symbol symbol
        (updateMapWithDate tm (get_config_for_symbol symbol tm).KEY date)).LAST_BUY_DATE
      = some date ∧
    (get_config_for_symbol symbol
        (updateMapWithDate tm (get_config_for_symbol symbol tm).KEY date)).BUY_ENABLED
      = (get_config_for_symbol symbol tm).BUY_ENABLED ∧
    (get_config_for_symbol symbol
        (updateMapWithDate tm (get_config_for_symbol symbol tm).KEY date)).TIME
      = (get_config_for_symbol symbol tm).TIME := by
  cases hs : lookupEntry tm symbol with
  | some e =>
      have hkey : (get_config_for_symbol symbol tm).KEY = symbol := by
        cases e <;> simp [get_config_for_symbol, findFirstKey, hs]
      rw [hkey]
      have hset : lookupEntry (updateMapWithDate tm symbol date) symbol
          = some (match lookupEntry tm symbol with
            | none => Entry.record none none none (some date)
            | some (.legacy t) =>
                Entry.record (some t) (some DEFAULT_DCA_AMOUNT) (some true) (some date)
            | some (.record t a b _) => Entry.record t a b (some date)) := by
        unfold updateMapWithDate
        exact lookupEntry_setEntry_self _ _ _
      rw [hs] at hset
      cases e with
      | legacy t =>
          simp [get_config_for_symbol, findFirstKey, hs, hset]
      | record t a b l =>
          simp [get_config_for_symbol, findFirstKey, hs, hset]
  | none =>
      cases ha : lookupEntry tm (baseSymbol symbol ++ "/USDT") with
      | some e =>
          have hkey : (get_config_for_symbol symbol tm).KEY
              = baseSymbol symbol ++ "/USDT" := by
            cases e <;> simp [get_config_for_symbol, findFirstKey, hs, ha]
          rw [hkey]
          have hne : symbol ≠ baseSymbol symbol ++ "/USDT" := by
            intro hEq
            rw [hEq] at hs
            rw [hs] at ha
            cases ha
          have hset : lookupEntry
              (updateMapWithDate tm (baseSymbol symbol ++ "/USDT") date)
              (baseSymbol symbol ++ "/USDT")
              = some (match lookupEntry tm (baseSymbol symbol ++ "/USDT") with
                | none => Entry.record none none none (some date)
                | some (.legacy t) =>
                    Entry.record (some t) (some DEFAULT_DCA_AMOUNT) (some true) (some date)
                | some (.record t a b _) => Entry.record t a b (some date)) := by
            unfold updateMapWithDate
            exact lookupEntry_setEntry_self _ _ _
          rw [ha] at hset
          have hsym : lookupEntry
              (updateMapWithDate tm (baseSymbol symbol ++ "/USDT") date) symbol = none := by
            unfold updateMapWithDate
            rw [lookupEntry_setEntry_other _ _ _ _ hne]
            exact hs
          cases e with
          | legacy t =>
              simp [get_config_for_symbol, findFirstKey, hs, ha, hsym, hset]
          | record t a b l =>
              simp [get_config_for_symbol, findFirstKey, hs, ha, hsym, hset]
      | none =>
          have hkey : (get_config_for_symbol symbol tm).KEY = symbol := by
            simp [get_config_for_symbol, findFirstKey, hs, ha]
          rw [hkey]
          have hset : lookupEntry (updateMapWithDate tm symbol date) symbol
              = some (match lookupEntry tm symbol with
                | none => Entry.record none none none (some date)
                | some (.legacy t) =>
                    Entry.record (some t) (some DEFAULT_DCA_AMOUNT) (some true) (some date)
                | some (.record t a b _) => Entry.record t a b (some date)) := by
            unfold updateMapWithDate
            exact lookupEntry_setEntry_self _ _ _
          rw [hs] at hset
          simp [get_config_for_symbol, findFirstKey, hs, ha, hset]

/-! ## StatePersister: `save_last_buy_date` (crypto-dca.py lines 221-319) -/

/-- Response of one `PATCH .../actions/variables/DCA_TARGET_MAP` request:
`ok` is status 204, `notFound` is status 404 (variable missing), `httpErr`
is any other status, and `timeout` / `exc` are the two caught
`requests` exceptions. -/
inductive PatchResp where
  | ok
  | notFound
  | httpErr (status : Nat) (text : String)
  | timeout
  | exc (msg : String)
deriving DecidableEq, Repr

/-- Response of the `POST .../actions/variables` create request attempted
after a 404: `created` is status 201. -/
inductive CreateResp where
  | created
  | createFail (status : Nat) (text : String)
deriving DecidableEq, Repr

/-- The backing GitHub-variable store, as an oracle giving the response to
the PATCH and (if reached) POST request of each retry attempt. -/
structure Store where
  patch : Nat → PatchResp
  create : Nat → CreateResp

/-- Whether attempt `i` of the retry loop succeeds, and with which
`last_error` string it fails otherwise (crypto-dca.py lines 274-298). -/
inductive AttemptOutcome where
  | succeeded
  | failed (err : String)
deriving DecidableEq, Repr

def runAttempt (st : Store) (i : Nat) : AttemptOutcome :=
  match st.patch i with
  | .ok => .succeeded
  | .notFound =>
      match st.create i with
      | .created => .succeeded
      | .createFail status text =>
          .failed ("Create failed: " ++ toString status ++ " " ++ text)
  | .httpErr status text => .failed ("HTTP " ++ toString status ++ ": " ++ text)
  | .timeout => .failed "Request timed out"
  | .exc msg => .failed msg

/-- Constant `retry_delays = [1, 3, 5]` (crypto-dca.py line 271). -/
def retry_delays : List Nat := [1, 3, 5]

/-- Constant `max_retries = 3` (crypto-dca.py line 270). -/
def max_retries : Nat := 3

/-- Trace of the retry loop: whether it returned successfully, how many
attempts it made, which delays it slept between attempts, and the final
`last_error`. -/
structure PushOutcome where
  ok : Bool
  attempts : Nat
  sleeps : List Nat
  lastError : Option String
deriving DecidableEq, Repr

/-- The `for attempt in range(max_retries)` loop (crypto-dca.py lines
274-304): run one attempt; on success return; on failure sleep
`retry_delays[attempt]` and continue unless this was the final attempt. -/
def pushLoop (st : Store) : Nat → Nat → Option String → PushOutcome
  | 0, _, lastErr => { ok := false, attempts := 0, sleeps := [], lastError := lastErr }
  | fuel + 1, i, lastErr =>
      match runAttempt st i with
      | .succeeded => { ok := true, attempts := 1, sleeps := [], lastError := lastErr }
      | .failed e =>
          if fuel = 0 then { ok := false, attempts := 1, sleeps := [], lastError := some e }
          else
            let rest := pushLoop st fuel (i + 1) (some e)
            { ok := rest.ok, attempts := 1 + rest.attempts,
              sleeps := retry_delays.getD i 0 :: rest.sleeps, lastError := rest.lastError }

/-- Python `str(None)` / `str(last_error)` as used in the messages. -/
def errStr : Option String → String
  | none => "None"
  | some e => e

/-- The urgent notification text sent when every retry has failed
(crypto-dca.py lines 307-314). -/
def criticalMsg (symbol_key date_str : String) (lastErr : Option String) : String :=
  "🚨 **CRITICAL: LAST_BUY_DATE UPDATE FAILED** 🚨\nSymbol: " ++ symbol_key ++
  "\nDate: " ++ date_str ++ "\nError: " ++ errStr lastErr ++
  "\n\n⚠️ **DOUBLE-BUY RISK**: The trade was executed but the safeguard was not updated!\n" ++
  "**ACTION REQUIRED**: Manually set `LAST_BUY_DATE` to `" ++ date_str ++
  "` for `" ++ symbol_key ++ "` in GitHub Variables."

/-- The message of the `RuntimeError` raised after exhaustion
(crypto-dca.py line 319). -/
def raiseMsg (lastErr : Option String) : String :=
  "Failed to update LAST_BUY_DATE after 3 attempts: " ++ errStr lastErr

/-- Discord notifications, abstracted to their kind plus the data the claims
are about (`criticalPersist` carries the full urgent message text).  The
success notification of step 7 of `execute_trade` has no constructor: that
code is unreachable (the step-6 gist call raises first, see
`execute_trade`). -/
inductive Alert where
  | fxFailed
  | criticalNoToken
  | criticalNoRepo
  | criticalPersist (msg : String)
  | dcaFailed (symbol : String) (err : String)
deriving DecidableEq, Repr

/-- Presence of the `GIST_TOKEN` and `GITHUB_REPOSITORY` environment
variables (crypto-dca.py lines 247-259). -/
structure Env where
  hasToken : Bool
  hasRepo : Bool
deriving DecidableEq, Repr

/-- Everything `save_last_buy_date` does: the staged in-memory map, the
returned-or-raised result (`Except.error` models the Python `raise`), the
attempt count, the delays slept, and the alerts sent. -/
structure SaveResult where
  newMap : TargetMap
  result : Except String Unit
  attempts : Nat
  sleeps : List Nat
  alerts : List Alert

/-- Function `save_last_buy_date` (crypto-dca.py lines 221-319): stage the date into
the in-memory map (converting a legacy scalar entry in place), then push
the serialized map with up to `max_retries` attempts; missing credentials
or exhaustion alert urgently and raise. -/
def save_last_buy_date (env : Env) (st : Store) (target_map : TargetMap)
    (symbol_key date_str : String) : SaveResult :=
  let newMap := updateMapWithDate target_map symbol_key date_str
  if env.hasToken = false then
    { newMap := newMap,
      result := .error "🚨 CRITICAL: No GIST_TOKEN found. Cannot update LAST_BUY_DATE. DOUBLE-BUY RISK!",
      attempts := 0, sleeps := [], alerts := [.criticalNoToken] }
  else if env.hasRepo = false then
    { newMap := newMap,
      result := .error "🚨 CRITICAL: GITHUB_REPOSITORY env var missing. Cannot update LAST_BUY_DATE. DOUBLE-BUY RISK!",
      attempts := 0, sleeps := [], alerts := [.criticalNoRepo] }
  else
    let o := pushLoop st max_retries 0 none
    if o.ok then
      { newMap := newMap, result := .ok (), attempts := o.attempts,
        sleeps := o.sleeps, alerts := [] }
    else
      { newMap := newMap, result := .error (raiseMsg o.lastError),
        attempts := o.attempts, sleeps := o.sleeps,
        alerts := [.criticalPersist (criticalMsg symbol_key date_str o.lastError)] }

/-- Claim C9: resolving a legacy scalar entry yields its time with the
process-default amount and `buyEnabled = true`; and the staging step of
`save_last_buy_date` converts that scalar entry in place into a structured
record preserving the time value. -/
theorem legacy_entry_migration (tm : TargetMap) (symbol t date : String)
    (env : Env) (st : Store)
    (hl : lookupEntry tm symbol = some (.legacy t)) :
    (get_config_for_symbol symbol tm).TIME = t ∧
    (get_config_for_symbol symbol tm).AMOUNT = DEFAULT_DCA_AMOUNT ∧
    (get_config_for_symbol symbol tm).BUY_ENABLED = true ∧
    lookupEntry (save_last_buy_date env st tm symbol date).newMap symbol
      = some (.record (some t) (some DEFAULT_DCA_AMOUNT) (some true) (some date)) := by
  have hcfg : get_config_for_symbol symbol tm =
      { TIME := t, AMOUNT := DEFAULT_DCA_AMOUNT, BUY_ENABLED := true,
        LAST_BUY_DATE := none, KEY := symbol } := by
    simp [get_config_for_symbol, findFirstKey, hl]
  have hnew : (save_last_buy_date env st tm symbol date).newMap
      = updateMapWithDate tm symbol date := by
    unfold save_last_buy_date
    split
    · rfl
    · split
      · rfl
      · simp only []
        split <;> rfl
  refine ⟨by rw [hcfg], by rw [hcfg], by rw [hcfg], ?_⟩
  rw [hnew]
  unfold updateMapWithDate
  rw [hl]
  exact lookupEntry_setEntry_self _ _ _

/-- Witness for C9: the concrete legacy entry `"07:00"` from the claim. -/
theorem legacy_entry_migration_witness :
    (get_config_for_symbol "BTC_THB" [("BTC_THB", Entry.legacy "07:00")]).TIME = "07:00" ∧
    (get_config_for_symbol "BTC_THB" [("BTC_THB", Entry.legacy "07:00")]).AMOUNT
      = DEFAULT_DCA_AMOUNT ∧
    (get_config_for_symbol "BTC_THB" [("BTC_THB", Entry.legacy "07:00")]).BUY_ENABLED = true ∧
    lookupEntry (save_last_buy_date ⟨true, true⟩
        ⟨fun _ => PatchResp.ok, fun _ => CreateResp.created⟩
        [("BTC_THB", Entry.legacy "07:00")] "BTC_THB" "2025-01-01").newMap "BTC_THB"
      = some (.record (some "07:00") (some DEFAULT_DCA_AMOUNT) (some true)
          (some "2025-01-01")) :=
  legacy_entry_migration [("BTC_THB", Entry.legacy "07:00")] "BTC_THB" "07:00" "2025-01-01"
    ⟨true, true⟩ ⟨fun _ => PatchResp.ok, fun _ => CreateResp.created⟩ (by decide)

theorem pushLoop_attempts_le (st : Store) (fuel : Nat) :
    ∀ i le, (pushLoop st fuel i le).attempts ≤ fuel := by
  induction fuel with
  | zero => intro i le; simp [pushLoop]
  | succ n ih =>
      intro i le
      simp only [pushLoop]
      cases hr : runAttempt st i with
      | succeeded => simp [hr]
      | failed e =>
          by_cases h : n = 0
          · simp [h]
          · simp only [if_neg h]
            have := ih (i + 1) (some e)
            simp only [PushOutcome.mk.injEq] at *
            omega

/-- Claim C4: `save_last_buy_date` makes at most 3 attempts with the
configured delays `[1, 3, 5]` slept between failed attempts; a store
failing on attempts 1 and 2 and succeeding on attempt 3 yields success in
exactly 3 attempts (having slept 1 s then 3 s); a 404 triggers the create
request instead of the update; and when all 3 attempts fail it raises and
sends exactly one urgent notification whose text contains the asset key
and the target date. -/
theorem save_retry_spec (env : Env) (st : Store) (tm : TargetMap)
    (key date : String) (htok : env.hasToken = true) (hrepo : env.hasRepo = true) :
    (save_last_buy_date env st tm key date).attempts ≤ max_retries ∧
    (∀ e0 e1, runAttempt st 0 = .failed e0 → runAttempt st 1 = .failed e1 →
      runAttempt st 2 = .succeeded →
      (save_last_buy_date env st tm key date).result = .ok () ∧
      (save_last_buy_date env st tm key date).attempts = 3 ∧
      (save_last_buy_date env st tm key date).sleeps = [1, 3]) ∧
    (st.patch 0 = .notFound → st.create 0 = .created →
      (save_last_buy_date env st tm key date).result = .ok () ∧
      (save_last_buy_date env st tm key date).attempts = 1) ∧
    (∀ e0 e1 e2, runAttempt st 0 = .failed e0 → runAttempt st 1 = .failed e1 →
      runAttempt st 2 = .failed e2 →
      (save_last_buy_date env st tm key date).result = .error (raiseMsg (some e2)) ∧
      (save_last_buy_date env st tm key date).sleeps = [1, 3] ∧
      (save_last_buy_date env st tm key date).alerts
        = [.criticalPersist (criticalMsg key date (some e2))] ∧
      ∃ pre mid post,
        criticalMsg key date (some e2) = pre ++ key ++ mid ++ date ++ post) := by
  refine ⟨?_, ?_, ?_, ?_⟩
  · have h3 := pushLoop_attempts_le st max_retries 0 none
    unfold save_last_buy_date
    rw [htok, hrepo]
    simp only [Bool.true_eq_false, if_false]
    split <;> simpa using h3
  · intro e0 e1 h0 h1 h2
    have hpush : pushLoop st max_retries 0 none
        = { ok := true, attempts := 3, sleeps := [1, 3], lastError := some e1 } := by
      simp [max_retries, pushLoop, h0, h1, h2, retry_delays]
    unfold save_last_buy_date
    rw [htok, hrepo]
    simp [hpush]
  · intro hp hc
    have h0 : runAttempt st 0 = .succeeded := by simp [runAttempt, hp, hc]
    have hpush : pushLoop st max_retries 0 none
        = { ok := true, attempts := 1, sleeps := [], lastError := none } := by
      simp [max_retries, pushLoop, h0]
    unfold save_last_buy_date
    rw [htok, hrepo]
    simp [hpush]
  · intro e0 e1 e2 h0 h1 h2
    have hpush : pushLoop st max_retries 0 none
        = { ok := false, attempts := 3, sleeps := [1, 3], lastError := some e2 } := by
      simp [max_retries, pushLoop, h0, h1, h2, retry_delays]
    unfold save_last_buy_date
    rw [htok, hrepo]
    refine ⟨by simp [hpush], by simp [hpush], by simp [hpush], ?_⟩
    exact ⟨"🚨 **CRITICAL: LAST_BUY_DATE UPDATE FAILED** 🚨\nSymbol: ",
      "\nDate: ",
      "\nError: " ++ errStr (some e2) ++
        "\n\n⚠️ **DOUBLE-BUY RISK**: The trade was executed but the safeguard was not updated!\n" ++
        "**ACTION REQUIRED**: Manually set `LAST_BUY_DATE` to `" ++ date ++
        "` for `" ++ key ++ "` in GitHub Variables.",
      by simp [criticalMsg, String.append_assoc]⟩

/-- Witness for C4: a store that times out twice and then succeeds, applied
to a concrete map, key and date. -/
theorem save_retry_spec_witness :
    (save_last_buy_date ⟨true, true⟩
        ⟨fun i => if i < 2 then PatchResp.timeout else PatchResp.ok,
         fun _ => CreateResp.created⟩
        [("BTC_THB", Entry.legacy "07:00")] "BTC_THB" "2025-01-01").result = .ok () ∧
    (save_last_buy_date ⟨true, true⟩
        ⟨fun i => if i < 2 then PatchResp.timeout else PatchResp.ok,
         fun _ => CreateResp.created⟩
        [("BTC_THB", Entry.legacy "07:00")] "BTC_THB" "2025-01-01").attempts = 3 ∧
    (save_last_buy_date ⟨true, true⟩
        ⟨fun i => if i < 2 then PatchResp.timeout else PatchResp.ok,
         fun _ => CreateResp.created⟩
        [("BTC_THB", Entry.legacy "07:00")] "BTC_THB" "2025-01-01").sleeps = [1, 3] :=
  (save_retry_spec ⟨true, true⟩
      ⟨fun i => if i < 2 then PatchResp.timeout else PatchResp.ok,
       fun _ => CreateResp.created⟩
      [("BTC_THB", Entry.legacy "07:00")] "BTC_THB" "2025-01-01" rfl rfl).2.1
    "Request timed out" "Request timed out" (by decide) (by decide) (by decide)

/-! ## OrderExecutor: `execute_trade` (crypto-dca.py lines 321-458) -/

/-- One element of the `history` list of the order.  The field `amount` is `t["amount"]`
(present, else the comprehension would raise) and `rate` is `t.get("rate", 0)`
with `none` for an absent key. -/
structure Fragment where
  amount : ℚ
  rate : Option ℚ
deriving DecidableEq, Repr

/-- The order-info payload consumed by `execute_trade`:
`order_data.get("filled", 0)`, `order_data.get("total", 0)` and
`order_data.get("history", [])`. -/
structure OrderData where
  filled : ℚ
  total : ℚ
  history : List Fragment
deriving DecidableEq, Repr

/-- Expression `received_amt` (crypto-dca.py line 370): sum of `amount / rate` over the
history fragments whose reported rate is strictly positive; the guard uses
`t.get("rate", 0)`, so an absent rate counts as `0` and is skipped. -/
def received_amt (history : List Fragment) : ℚ :=
  ((history.filter fun t => 0 < t.rate.getD 0).map fun t => t.amount / t.rate.getD 0).sum

/-- Expression `rate = (spent_thb / received_amt) if received_amt > 0 else 0`
(crypto-dca.py line 372). -/
def effective_rate (spent_thb received : ℚ) : ℚ :=
  if 0 < received then spent_thb / received else 0

/-- The external responses one call of `execute_trade` sees: the venue error
code of the place-bid request, whether the order-info fetch succeeds, the
order data it returns, the FX rate (with `0` the unavailable sentinel), and
the date string of today.  No persistence credentials or store appear here:
`execute_trade` never reaches its persistence step (see below). -/
structure TradeWorld where
  placeError : Int
  infoOk : Bool
  orderData : OrderData
  fxRate : ℚ
  today : String

/-- Everything one call of `execute_trade` does.  `caught` is the exception
consumed by the blanket `except` at crypto-dca.py lines 455-458 (the
function itself always returns normally); `spent`, `received` and `rate`
are the values computed at lines 366-372 before the raising gist call;
`persistOk` records whether `save_last_buy_date` returned successfully —
always `false`, since that call is never reached. -/
structure ExecResult where
  finalMap : TargetMap
  spent : ℚ
  received : ℚ
  rate : ℚ
  persistOk : Bool
  caught : Option String
  alerts : List Alert

/-- Message of the `TypeError` raised by the step-6 gist call (the inner
quotes of the Python rendering are elided). -/
def gistTypeErrorMsg : String :=
  "update_gist_log() got an unexpected keyword argument saved_to_ghostfolio"

/-- Function `execute_trade` (crypto-dca.py lines 321-458): place the bid (a
non-zero venue error code raises), fetch order info, reduce the fill
history, compute the effective rate — and then call
`update_gist_log(..., symbol=base_sym, saved_to_ghostfolio=ghostfolio_saved)`
at line 433.  `gist_logger.update_gist_log` (gist_logger.py line 46) is
`def update_gist_log(trade_data, symbol="BTC")`: it accepts no
`saved_to_ghostfolio` keyword and no keyword catch-all, so this call raises
`TypeError` unconditionally, before the callee runs.  The blanket `except`
at lines 455-458 catches it and sends an ordinary failure alert.  Step 7
(the success notification) and step 8 (`save_last_buy_date` on `map_key`
and `target_map`) are therefore dead code: the function never stages or
persists `LAST_BUY_DATE` and never raises. -/
def execute_trade (w : TradeWorld) (symbol : String) (amount_thb : ℚ)
    (map_key : Option String) (target_map : TargetMap) : ExecResult :=
  if w.placeError ≠ 0 then
    { finalMap := target_map, spent := 0, received := 0, rate := 0, persistOk := false,
      caught := some ("API Error Code: " ++ toString w.placeError),
      alerts := [.dcaFailed symbol ("API Error Code: " ++ toString w.placeError)] }
  else if w.infoOk = false then
    { finalMap := target_map, spent := 0, received := 0, rate := 0, persistOk := false,
      caught := some "order-info request failed",
      alerts := [.dcaFailed symbol "order-info request failed"] }
  else
    let spent0 := w.orderData.filled
    let spent := if spent0 = 0 then w.orderData.total else spent0
    let received := received_amt w.orderData.history
    let rate := effective_rate spent received
    let fxAlerts := if w.fxRate = 0 then [Alert.fxFailed] else []
    { finalMap := target_map, spent := spent, received := received, rate := rate,
      persistOk := false, caught := some gistTypeErrorMsg,
      alerts := fxAlerts ++ [.dcaFailed symbol gistTypeErrorMsg] }

/-- Claim C7: `received_amt` is `0` on an empty history, adds
`amount / price` for a fragment with strictly positive price, skips (without
raising — the function is total) a fragment with non-positive or absent
price, and evaluates to `4` on the fragments
`[(amount=100, price=50), (amount=50, price=25)]`. -/
theorem fill_aggregation :
    received_amt [] = 0 ∧
    (∀ t rest, 0 < t.rate.getD 0 →
      received_amt (t :: rest) = t.amount / t.rate.getD 0 + received_amt rest) ∧
    (∀ t rest, t.rate.getD 0 ≤ 0 →
      received_amt (t :: rest) = received_amt rest) ∧
    received_amt [⟨100, some 50⟩, ⟨50, some 25⟩] = 4 := by
  refine ⟨rfl, ?_, ?_, ?_⟩
  · intro t rest ht
    simp [received_amt, List.filter, ht]
  · intro t rest ht
    simp [received_amt, List.filter, not_lt.mpr ht]
  · show received_amt [⟨100, some 50⟩, ⟨50, some 25⟩] = 4
    rw [received_amt]
    norm_num

/-- Witness for C7: the positive-price recurrence applied to the single
fragment `(amount=100, price=50)`. -/
theorem fill_aggregation_witness :
    received_amt [⟨100, some 50⟩] = (100 : ℚ) / (some (50 : ℚ)).getD 0 + received_amt [] :=
  fill_aggregation.2.1 ⟨100, some 50⟩ [] (by norm_num)

/-- A world in which the bid is placed fine but the settle-delay
reconciliation finds an empty fill history (`receivedBase = 0`). -/
def zeroFillWorld : TradeWorld :=
  { placeError := 0, infoOk := true, orderData := { filled := 0, total := 800, history := [] },
    fxRate := 1, today := "2025-01-01" }

/-- A world whose order is genuinely filled: history
`[(amount=800, rate=40)]`, so `receivedBase = 20`. -/
def filledWorld : TradeWorld :=
  { placeError := 0, infoOk := true,
    orderData := { filled := 800, total := 0, history := [⟨800, some 40⟩] },
    fxRate := 1, today := "2025-01-01" }

/-- A target map holding one structured entry without a day-stamp. -/
def btcMap : TargetMap := [("BTC_THB", Entry.record (some "07:00") (some 800) none none)]

/-- Counterexample to claim C6: on a zero-fill order the code does not leave
`effectivePrice` undefined — it defaults the rate to the number zero, the
very value the claim rules out. -/
theorem effective_price_zero_cex :
    (execute_trade zeroFillWorld "BTC_THB" 800 none []).received = 0 ∧
    (execute_trade zeroFillWorld "BTC_THB" 800 none []).rate = 0 := by
  decide

/-- Claim C6 (amended): whenever `receivedBase = 0` the code defaults
`effectivePrice` to the sentinel value `0` (rather than leaving it
undefined), and whenever `receivedBase > 0` it equals
`filledAmountQuote / receivedBase`; it is never infinite because the
division is only performed when the divisor is positive. -/
theorem effective_price_spec (spent : ℚ) (history : List Fragment) :
    (received_amt history = 0 → effective_rate spent (received_amt history) = 0) ∧
    (0 < received_amt history →
      effective_rate spent (received_amt history) = spent / received_amt history) := by
  constructor
  · intro h
    simp [effective_rate, h]
  · intro h
    simp [effective_rate, h]

/-- Witness for the amended C6: the zero-fill case on an empty history. -/
theorem effective_price_spec_witness :
    effective_rate 800 (received_amt []) = 0 :=
  (effective_price_spec 800 []).1 (by decide)

/-- Claim C1: with `receivedBase = 0` after the settle delay (zero-fill),
`execute_trade` does not trigger the idempotency update: for every asset
key and target map the returned map is the input map unchanged (so
`LAST_BUY_DATE` of every asset is untouched), nothing is staged and nothing
is persisted.  This holds because step 8 is unreachable: the step-6 gist
call raises `TypeError` first (crypto-dca.py line 433 vs gist_logger.py
line 46) and the blanket `except` catches it — in fact the map is unchanged
on every fill outcome, of which the zero-fill case of the claim is an
instance. -/
theorem zero_fill_stamp_unchanged (w : TradeWorld) (symbol : String) (amount : ℚ)
    (map_key : Option String) (tm : TargetMap)
    (hz : received_amt w.orderData.history = 0) :
    (execute_trade w symbol amount map_key tm).finalMap = tm ∧
    (execute_trade w symbol amount map_key tm).persistOk = false ∧
    ∀ k, lookupEntry (execute_trade w symbol amount map_key tm).finalMap k
      = lookupEntry tm k := by
  have h : (execute_trade w symbol amount map_key tm).finalMap = tm ∧
      (execute_trade w symbol amount map_key tm).persistOk = false := by
    unfold execute_trade
    split
    · exact ⟨rfl, rfl⟩
    · split
      · exact ⟨rfl, rfl⟩
      · exact ⟨rfl, rfl⟩
  refine ⟨h.1, h.2, fun k => ?_⟩
  rw [h.1]

/-- Witness for C1: the zero-fill world applied to the concrete map leaves
the entry of the asset, and in particular its absent `LAST_BUY_DATE`,
exactly as it was. -/
theorem zero_fill_stamp_unchanged_witness :
    (execute_trade zeroFillWorld "BTC_THB" 800 (some "BTC_THB") btcMap).finalMap = btcMap ∧
    (execute_trade zeroFillWorld "BTC_THB" 800 (some "BTC_THB") btcMap).persistOk = false :=
  ⟨(zero_fill_stamp_unchanged zeroFillWorld "BTC_THB" 800 (some "BTC_THB") btcMap
      (by decide)).1,
   (zero_fill_stamp_unchanged zeroFillWorld "BTC_THB" 800 (some "BTC_THB") btcMap
      (by decide)).2.1⟩

/-- The staged map returned by `save_last_buy_date` is the in-memory update,
on every control path of the function. -/
theorem save_last_buy_date_newMap (env : Env) (st : Store) (tm : TargetMap)
    (key date : String) :
    (save_last_buy_date env st tm key date).newMap = updateMapWithDate tm key date := by
  unfold save_last_buy_date
  split
  · rfl
  · split
    · rfl
    · simp only []
      split <;> rfl

/-- Boolean recognizer of the urgent persistence-failure notification. -/
def isUrgentPersistAlert : Alert → Bool
  | .criticalPersist _ => true
  | _ => false

/-- Claim C5, evaluated against the source: no execution of `execute_trade`
can exhibit the claimed propagation, because the cycle never reaches the
day-stamp persistence at all.  For every world and every argument,
`persistOk` is `false` and no urgent persistence alert is ever emitted by
the cycle (the persistence layer is unreachable: the step-6 gist call
raises `TypeError` first); and at a concrete genuinely-filled input the
`TypeError` is caught by the blanket `except` (crypto-dca.py lines 455-458)
and converted into exactly an ordinary per-asset `DCA Failed` notification,
the call returning normally — so nothing can ever reach the process exit
status, contrary to the claim and to the docstring of `save_last_buy_date`
(crypto-dca.py lines 224-225, raise "to fail the workflow loudly"). -/
theorem persist_error_never_propagates :
    (∀ (w : TradeWorld) (symbol : String) (amount : ℚ) (map_key : Option String)
      (tm : TargetMap), (execute_trade w symbol amount map_key tm).persistOk = false) ∧
    (∀ (w : TradeWorld) (symbol : String) (amount : ℚ) (map_key : Option String)
      (tm : TargetMap),
      (execute_trade w symbol amount map_key tm).alerts.filter isUrgentPersistAlert = []) ∧
    0 < received_amt filledWorld.orderData.history ∧
    (execute_trade filledWorld "BTC_THB" 800 (some "BTC_THB") btcMap).caught
      = some gistTypeErrorMsg ∧
    (execute_trade filledWorld "BTC_THB" 800 (some "BTC_THB") btcMap).alerts
      = [.dcaFailed "BTC_THB" gistTypeErrorMsg] := by
  refine ⟨?_, ?_, ?_, by decide, by decide⟩
  · intro w symbol amount map_key tm
    unfold execute_trade
    split
    · rfl
    · split
      · rfl
      · rfl
  · intro w symbol amount map_key tm
    unfold execute_trade
    split
    · rfl
    · split
      · rfl
      · simp only []
        split <;> rfl
  · show 0 < received_amt [⟨800, some 40⟩]
    rw [received_amt]
    norm_num

/-! ## The per-asset cycle of `main` (crypto-dca.py lines 490-514) -/

/-- What one pass of the `for symbol in symbols_to_process` loop body does:
whether it reached `execute_trade` (an order placement attempt), whether the
`LAST_BUY_DATE == today` guard fired, the map it leaves behind, and the
`execute_trade` outcome when one happened. -/
structure CycleResult where
  placed : Bool
  sawAlreadyDone : Bool
  finalMap : TargetMap
  execResult : Option ExecResult

/-- The loop body of `main` for one symbol (crypto-dca.py lines 490-514):
resolve the config, skip when disabled, skip when it is not time, skip when
`LAST_BUY_DATE` equals the date string of today, otherwise call `execute_trade`
with the resolved key and the live map. -/
def processSymbol (w : TradeWorld) (nowSecs : Int) (target_map : TargetMap)
    (symbol : String) : CycleResult :=
  let config := get_config_for_symbol symbol target_map
  if config.BUY_ENABLED = false then
    { placed := false, sawAlreadyDone := false, finalMap := target_map, execResult := none }
  else if is_time_to_trade config.TIME nowSecs then
    if config.LAST_BUY_DATE = some w.today then
      { placed := false, sawAlreadyDone := true, finalMap := target_map, execResult := none }
    else
      let r := execute_trade w symbol config.AMOUNT (some config.KEY) target_map
      { placed := true, sawAlreadyDone := false, finalMap := r.finalMap, execResult := some r }
  else
    { placed := false, sawAlreadyDone := false, finalMap := target_map, execResult := none }

/-- If a cycle pass placed an order, it did so through `execute_trade` on
the resolved key and amount, the resolved config was enabled, and the
resulting map is the one `execute_trade` left behind. -/
theorem processSymbol_placed_spec (w : TradeWorld) (now : Int) (tm : TargetMap)
    (symbol : String) (h1 : (processSymbol w now tm symbol).placed = true) :
    (processSymbol w now tm symbol).finalMap
      = (execute_trade w symbol (get_config_for_symbol symbol tm).AMOUNT
          (some (get_config_for_symbol symbol tm).KEY) tm).finalMap ∧
    (processSymbol w now tm symbol).execResult
      = some (execute_trade w symbol (get_config_for_symbol symbol tm).AMOUNT
          (some (get_config_for_symbol symbol tm).KEY) tm) ∧
    (get_config_for_symbol symbol tm).BUY_ENABLED = true := by
  by_cases hb : (get_config_for_symbol symbol tm).BUY_ENABLED = false
  · simp [processSymbol, hb] at h1
  · have hben : (get_config_for_symbol symbol tm).BUY_ENABLED = true := by
      revert hb
      cases (get_config_for_symbol symbol tm).BUY_ENABLED <;> simp
    by_cases ht : is_time_to_trade (get_config_for_symbol symbol tm).TIME now = true
    · by_cases hd : (get_config_for_symbol symbol tm).LAST_BUY_DATE = some w.today
      · simp [processSymbol, hb, ht, hd] at h1
      · refine ⟨?_, ?_, hben⟩ <;> simp [processSymbol, hb, ht, hd]
    · have ht' : is_time_to_trade (get_config_for_symbol symbol tm).TIME now = false := by
        revert ht
        cases is_time_to_trade (get_config_for_symbol symbol tm).TIME now <;> simp
      simp [processSymbol, hb, ht'] at h1

/-- Claim C2, evaluated at the failing input: two same-day cycle passes on
the same asset, the first with a genuinely filled order.  The first pass
places the order, but the day-stamp is never persisted — `execute_trade`
dies on the `TypeError` of its gist call (crypto-dca.py line 433) before
step 8, caught by the blanket `except` — so the map comes back unchanged
with `LAST_BUY_DATE` still absent.  The second pass therefore finds
`isAlreadyDone` false and places the order again: the claimed
exactly-once property does not hold of the program.  (The guard logic
itself is sound: `config_after_update` shows a persisted stamp would be
seen; it is the persistence that is unreachable.) -/
theorem second_run_rebuys :
    0 < received_amt filledWorld.orderData.history ∧
    (processSymbol filledWorld 25200 btcMap "BTC_THB").placed = true ∧
    (processSymbol filledWorld 25200 btcMap "BTC_THB").finalMap = btcMap ∧
    (get_config_for_symbol "BTC_THB"
        (processSymbol filledWorld 25200 btcMap "BTC_THB").finalMap).LAST_BUY_DATE = none ∧
    (processSymbol filledWorld 30000
        (processSymbol filledWorld 25200 btcMap "BTC_THB").finalMap "BTC_THB").placed
      = true ∧
    (processSymbol filledWorld 30000
        (processSymbol filledWorld 25200 btcMap "BTC_THB").finalMap "BTC_THB").sawAlreadyDone
      = false := by
  refine ⟨?_, by decide, by decide, by decide, by decide, by decide⟩
  show 0 < received_amt [⟨800, some 40⟩]
  rw [received_amt]
  norm_num

end DCA
